import Mathlib

/-!
Shallow embedding of the Hytale server manager (src/hytale_server_manager.py)
and its older variant (src/hytale_updater.py): configuration loading and
merging, the update-skip decision, version parsing, the update application
step, command forwarding, world backups, the prerequisite-gated start
sequence, and the crash/auto-restart policy of the monitor loop.
-/

namespace Hytale

/-- JSON-style values stored in the configuration dictionary. -/
inductive JValue where
  | str (s : String)
  | num (n : Int)
  | bool (b : Bool)
  | null
  deriving DecidableEq, Repr

/-- A Python dict of configuration entries, modelled as an association list
in insertion order with unique keys. -/
abbrev Config := List (String × JValue)

/-- Dictionary lookup: the value at the first (only) occurrence of the key. -/
def lookup : Config → String → Option JValue
  | [], _ => none
  | (k0, v0) :: rest, k => if k0 == k then some v0 else lookup rest k

/-- Python dict assignment semantics: replace the value at an existing key in
place, else append the new entry at the end. -/
def dictInsert : Config → String → JValue → Config
  | [], k, v => [(k, v)]
  | (k0, v0) :: rest, k, v =>
    if k0 == k then (k0, v) :: rest
    else (k0, v0) :: dictInsert rest k v

/-- Python dict.update semantics: assign every entry of the second dict into
the first, in order. -/
def dictUpdate (d : Config) (l : Config) : Config :=
  l.foldl (fun acc p => dictInsert acc p.1 p.2) d

/-- dict.get(key, dflt). -/
def cfgGet (cfg : Config) (k : String) (dflt : JValue) : JValue :=
  (lookup cfg k).getD dflt

/-- Python truthiness of a JSON value (used by the if-tests on config flags
and on the queried remote version string). -/
def pyTruthyJ : JValue → Bool
  | .bool b => b
  | .str s => !(s == "")
  | .num n => !(n == 0)
  | .null => false

/-- Python truthiness of an optional string (None and the empty string are
falsy). -/
def pyTruthy : Option String → Bool
  | none => false
  | some s => !(s == "")

/-- Python int( ) applied to a JSON value; none models the cases where the
conversion raises. -/
def pyInt : JValue → Option Int
  | .num n => some n
  | .bool b => some (if b then 1 else 0)
  | .str s => s.toInt?
  | .null => none

/-- Python list slicing lst[:j]: a nonnegative bound takes that many leading
elements, a negative bound drops the last -j elements (so j = 0 takes
nothing, which is what backups[:-max_b] evaluates to when max_b = 0). -/
def pySliceUpTo (l : List String) (j : Int) : List String :=
  if j < 0 then l.take (l.length - (-j).toNat) else l.take j.toNat

/-- Python string comparison: code-point lexicographic order on the
characters. -/
def pyStrLt : List Char → List Char → Bool
  | [], [] => false
  | [], _ :: _ => true
  | _ :: _, [] => false
  | a :: as, b :: bs =>
    if a < b then true else if b < a then false else pyStrLt as bs

/-- The default_config dict of src/hytale_server_manager.py, lines 34-49. -/
def default_config_mgr : Config :=
  [ ("last_server_version", .str "0.0.0"),
    ("dark_mode", .bool true),
    ("enable_logging", .bool true),
    ("check_updates", .bool true),
    ("auto_start", .bool false),
    ("enable_backups", .bool true),
    ("enable_discord", .bool false),
    ("discord_webhook", .str ""),
    ("enable_auto_restart", .bool true),
    ("enable_schedule", .bool false),
    ("restart_interval", .num 12),
    ("server_memory", .str "8G"),
    ("max_backups", .num 3),
    ("manager_auto_update", .bool true) ]

/-- The default_config dict of src/hytale_updater.py, lines 38-51. -/
def default_config_upd : Config :=
  [ ("last_server_version", .str "0.0.0"),
    ("dark_mode", .bool true),
    ("enable_logging", .bool true),
    ("check_updates", .bool true),
    ("auto_start", .bool false),
    ("enable_backups", .bool true),
    ("enable_discord", .bool false),
    ("discord_webhook", .str ""),
    ("enable_auto_restart", .bool true),
    ("enable_schedule", .bool false),
    ("restart_interval", .num 12),
    ("server_memory", .str "8G") ]

/-- Observable state of the configuration file on disk: absent, present but
unreadable or unparsable (open or json.load raises), or parsed to a
document. -/
inductive ConfigFileState where
  | absent
  | unreadable
  | parsed (doc : Config)
  deriving DecidableEq, Repr

/-- load_config of src/hytale_server_manager.py, lines 32-58: if the file
exists and parses, the defaults updated with the loaded document are
returned; on a read or parse exception the error is printed and the bare
defaults are returned, as they are when the file is absent. -/
def load_config_mgr : ConfigFileState → Config
  | .parsed doc => dictUpdate default_config_mgr doc
  | _ => default_config_mgr

/-- load_config of src/hytale_updater.py, lines 37-60 (same structure,
smaller default dict). -/
def load_config_upd : ConfigFileState → Config
  | .parsed doc => dictUpdate default_config_upd doc
  | _ => default_config_upd

/-- Splitting a character list on the dot separator, as v.split for the
single-character separator does in Python (parse_ver, line 268). -/
def splitDots : List Char → List (List Char)
  | [] => [[]]
  | c :: cs =>
    if c = '.' then [] :: splitDots cs
    else
      match splitDots cs with
      | [] => [[c]]
      | p :: ps => (c :: p) :: ps

/-- Python int( ) on a string of decimal digits (the only inputs
check_self_update feeds it). -/
def digitsVal (cs : List Char) : Nat :=
  cs.foldl (fun n c => n * 10 + (c.toNat - 48)) 0

/-- parse_ver of src/hytale_server_manager.py, line 268: split the dotted
version string on dots and convert each component to an integer. -/
def parse_ver (v : String) : List Nat :=
  (splitDots v.data).map digitsVal

/-- Python list comparison, here on lists of naturals: elementwise, first
difference decides, a strict prefix is smaller. -/
def pyListLt : List Nat → List Nat → Bool
  | [], [] => false
  | [], _ :: _ => true
  | _ :: _, [] => false
  | a :: as, b :: bs =>
    if a < b then true else if b < a then false else pyListLt as bs

/-- The manager self-update decision of src/hytale_server_manager.py,
line 270: download iff parse_ver(remote) > parse_ver(local) under Python
list comparison. -/
def self_update_proceeds (remoteV localV : String) : Bool :=
  pyListLt (parse_ver localV) (parse_ver remoteV)

/-- File name constants shared by both source files. -/
def SERVER_JAR : String := "HytaleServer.jar"

def AOT_FILE : String := "HytaleServer.aot"

def ASSETS_FILE : String := "Assets.zip"

/-- Externally visible actions taken by update_server. downloadApply is the
Popen of the updater's primary download action; replaceFile is a copy of a
staged item over the working directory; saveConfig is a persistence of the
configuration; removeAot is the deletion of the cached AOT artifact. -/
inductive UEvent where
  | downloadApply
  | replaceFile (name : String)
  | saveConfig (c : Config)
  | removeAot
  deriving DecidableEq, Repr

/-- Contents of the staging directory after the updater ran
(src/hytale_server_manager.py, lines 376-401): the files present at the
staging root, whether a Server subdirectory exists, and the files present
in it. -/
structure Staging where
  rootFiles : List String
  hasServerDir : Bool
  serverDirFiles : List String
  deriving DecidableEq, Repr

/-- The replacements list of src/hytale_server_manager.py, line 387. -/
def replacements : List String := [SERVER_JAR, AOT_FILE, ASSETS_FILE, "Licenses"]

/-- The copy loop over the replacements for one search root: every listed
item present in the root is copied over the working directory. -/
def applyFromRoot (files : List String) : List UEvent :=
  (replacements.filter (fun i => files.contains i)).map UEvent.replaceFile

/-- The search over staging roots (src/hytale_server_manager.py, lines
376-401): the staging root first, then the Server subdirectory if it
exists; the first root holding the server jar is applied and the loop
breaks. Returns whether the jar was found and the copies performed. -/
def applyFiles (st : Staging) : Bool × List UEvent :=
  if st.rootFiles.contains SERVER_JAR then
    (true, applyFromRoot st.rootFiles)
  else if st.hasServerDir && st.serverDirFiles.contains SERVER_JAR then
    (true, applyFromRoot st.serverDirFiles)
  else (false, [])

/-- The update-skip decision shared by both update_server bodies: skip iff
the queried remote version is truthy and string-equal to the recorded
last_server_version. -/
def server_update_skips (remote : Option String) (cfg : Config) : Bool :=
  pyTruthy remote &&
    (JValue.str (remote.getD "") == cfgGet cfg "last_server_version" (.str "0.0.0"))

/-- Result of an update_server run: the actions performed in order and the
in-memory configuration afterwards. -/
structure UpdateResult where
  events : List UEvent
  config : Config
  deriving DecidableEq, Repr

/-- update_server of src/hytale_server_manager.py, lines 344-426, modelled
from the point where the updater tool has been resolved: remote is the
-print-version query result, exitCode the returncode of the download
invocation, st the staging contents it produced. On skip the function
returns before any action; otherwise the download runs, on exit code 0 the
staged files are applied and, when the remote version is truthy, the
recorded version is overwritten and the configuration saved. The manager
variant never deletes the AOT artifact. -/
def update_server_mgr (remote : Option String) (cfg : Config) (exitCode : Int)
    (st : Staging) : UpdateResult :=
  if server_update_skips remote cfg then
    { events := [], config := cfg }
  else
    if exitCode == 0 then
      let evs := (applyFiles st).2
      if pyTruthy remote then
        let cfg2 := dictInsert cfg "last_server_version" (.str (remote.getD ""))
        { events := UEvent.downloadApply :: evs ++ [UEvent.saveConfig cfg2],
          config := cfg2 }
      else
        { events := UEvent.downloadApply :: evs, config := cfg }
    else
      { events := [UEvent.downloadApply], config := cfg }

/-- update_server of src/hytale_updater.py, lines 208-249, modelled from the
point where the updater tool has been resolved: on skip it returns before
any action; otherwise the download runs and, on exit code 0, the recorded
version is overwritten and saved when the remote version is truthy, and the
AOT artifact is removed when it exists. -/
def update_server_upd (remote : Option String) (cfg : Config) (exitCode : Int)
    (aotExists : Bool) : UpdateResult :=
  if server_update_skips remote cfg then
    { events := [], config := cfg }
  else
    if exitCode == 0 then
      if pyTruthy remote then
        let cfg2 := dictInsert cfg "last_server_version" (.str (remote.getD ""))
        { events := [UEvent.downloadApply, UEvent.saveConfig cfg2] ++
            (if aotExists then [UEvent.removeAot] else []),
          config := cfg2 }
      else
        { events := UEvent.downloadApply ::
            (if aotExists then [UEvent.removeAot] else []),
          config := cfg }
    else
      { events := [UEvent.downloadApply], config := cfg }

/-- State of the child process's stdin channel when written to. -/
inductive ChanState where
  | opened
  | closed
  deriving DecidableEq, Repr

/-- Outcome of a send_command call: either the given bytes were written and
flushed to the child's stdin, or a message was logged and nothing written.
There is no raising outcome: both failure paths only log. -/
inductive SendOutcome where
  | wrote (bytes : String)
  | logged (msg : String)
  deriving DecidableEq, Repr

/-- A stdin write plus flush: succeeds on an open channel, raises (as an
error value) on a closed one. -/
def stdinWriteFlush (chan : ChanState) : Except String Unit :=
  match chan with
  | .opened => .ok ()
  | .closed => .error "BrokenPipeError"

/-- send_command of src/hytale_server_manager.py, lines 437-448:
procPresent models self.server_process not being None, poll the poll()
result (none while running). On a live process the bytes command + newline
are written and flushed; an exception from the write is caught and logged;
an absent or exited process only logs. -/
def send_command (procPresent : Bool) (poll : Option Int) (chan : ChanState)
    (command : String) : SendOutcome :=
  if procPresent && (poll == none) then
    match stdinWriteFlush chan with
    | .ok _ => .wrote (command ++ "\n")
    | .error e => .logged ("Failed to send command: " ++ e)
  else .logged "Server is not running."

/-- Result of a backup_world run: whether the timestamped archive was
created, and which existing archives were removed by the prune. -/
structure BackupRun where
  archiveCreated : Bool
  removed : List String
  deriving DecidableEq, Repr

/-- backup_world of src/hytale_server_manager.py, lines 450-475: no action
when backups are disabled or the world directory is missing; otherwise the
archive is created and, with max_b = int(config.get("max_backups", 3)),
when more than max_b matching archives are listed the slice
backups[:-max_b] of the sorted listing is removed. backups is the sorted
post-creation listing of world_backup_*.zip names; a failing int
conversion raises inside the try and is caught after the archive was
already created. -/
def backup_world_mgr (cfg : Config) (worldExists : Bool)
    (backups : List String) : BackupRun :=
  if !pyTruthyJ (cfgGet cfg "enable_backups" (.bool true)) then
    { archiveCreated := false, removed := [] }
  else if !worldExists then
    { archiveCreated := false, removed := [] }
  else
    match pyInt (cfgGet cfg "max_backups" (.num 3)) with
    | none => { archiveCreated := true, removed := [] }
    | some maxB =>
      if (backups.length : Int) > maxB then
        { archiveCreated := true, removed := pySliceUpTo backups (-maxB) }
      else
        { archiveCreated := true, removed := [] }

/-- backup_world of src/hytale_updater.py, lines 251-271: same skip
conditions, but the retention count is the fixed literal 5, ignoring the
configuration. -/
def backup_world_upd (cfg : Config) (worldExists : Bool)
    (backups : List String) : BackupRun :=
  if !pyTruthyJ (cfgGet cfg "enable_backups" (.bool true)) then
    { archiveCreated := false, removed := [] }
  else if !worldExists then
    { archiveCreated := false, removed := [] }
  else
    if backups.length > 5 then
      { archiveCreated := true, removed := pySliceUpTo backups (-(5 : Int)) }
    else
      { archiveCreated := true, removed := [] }

/-- Events emitted by the tail of the monitor loop once it observes the
child's exit (src/hytale_server_manager.py, lines 578-588). -/
inductive MEvent where
  | logExit (rc : Int)
  | statusStopped
  | webhookStopped (rc : Int)
  | logCrashRestart
  | webhookCrash
  | sleepSeconds (n : Nat)
  | startSequence
  deriving DecidableEq, Repr

/-- The monitor-loop tail of src/hytale_server_manager.py, lines 578-588:
after the exit with code rc is observed, the exit is logged, the status set
to Stopped and the stop notification sent; then, iff rc is nonzero and no
stop was requested and the enable_auto_restart config value is truthy, the
crash is logged and notified, a fixed 10-second sleep is taken and the
start sequence is re-entered. -/
def monitor_exit (rc : Int) (stopRequested : Bool) (cfg : Config) : List MEvent :=
  [MEvent.logExit rc, MEvent.statusStopped, MEvent.webhookStopped rc] ++
    (if (rc != 0) && !stopRequested &&
        pyTruthyJ (cfgGet cfg "enable_auto_restart" (.bool true)) then
      [MEvent.logCrashRestart, MEvent.webhookCrash, MEvent.sleepSeconds 10,
        MEvent.startSequence]
    else [])

/-- Steps of the start sequence after the prerequisite checks
(src/hytale_server_manager.py, lines 496-535). -/
inductive SEvent where
  | killExisting
  | selfUpdateCheck
  | updateStep
  | backupStep
  | spawnServer
  deriving DecidableEq, Repr

/-- _start_server_thread of src/hytale_server_manager.py, lines 496-535:
javaOk is the check_java_version result and assets the check_assets result.
If the Java check fails or no assets path is obtained the thread returns at
once; otherwise any existing server is killed, the self-update check runs,
the update step runs when check_updates is truthy, the backup step runs and
the server process is spawned. -/
def start_server_thread (javaOk : Bool) (assets : Option String) (cfg : Config) :
    List SEvent :=
  if !javaOk then []
  else
    match assets with
    | none => []
    | some _ =>
      [SEvent.killExisting, SEvent.selfUpdateCheck] ++
        (if pyTruthyJ (cfgGet cfg "check_updates" (.bool true)) then
          [SEvent.updateStep]
        else []) ++
        [SEvent.backupStep, SEvent.spawnServer]

/-! Helper lemmas about the dictionary operations. -/

theorem lookup_dictInsert (d : Config) (k0 : String) (v0 : JValue) (k : String) :
    lookup (dictInsert d k0 v0) k = if k0 == k then some v0 else lookup d k := by
  induction d with
  | nil =>
    by_cases h : k0 = k <;> simp [dictInsert, lookup, h]
  | cons p rest ih =>
    obtain ⟨k1, v1⟩ := p
    by_cases h1 : k1 = k0
    · subst h1
      by_cases h2 : k1 = k <;> simp [dictInsert, lookup, h2]
    · by_cases h2 : k1 = k
      · subst h2
        have hne : ¬ k1 = k0 := h1
        have hne2 : ¬ k0 = k1 := fun h => hne h.symm
        simp [dictInsert, lookup, hne, hne2]
      · simp [dictInsert, lookup, h1, h2, ih]

theorem lookup_eq_none_of_notMem (l : Config) (k : String)
    (h : k ∉ l.map Prod.fst) : lookup l k = none := by
  induction l with
  | nil => rfl
  | cons p rest ih =>
    obtain ⟨k1, v1⟩ := p
    simp only [List.map_cons, List.mem_cons] at h
    push_neg at h
    have hne : ¬ k1 = k := fun he => h.1 he.symm
    simp [lookup, hne, ih h.2]

theorem lookup_dictUpdate (l : Config) :
    ∀ d k, (l.map Prod.fst).Nodup →
      lookup (dictUpdate d l) k = (lookup l k).orElse (fun _ => lookup d k) := by
  induction l with
  | nil =>
    intro d k _
    simp [dictUpdate, lookup, Option.orElse]
  | cons p rest ih =>
    intro d k hnd
    obtain ⟨k1, v1⟩ := p
    simp only [List.map_cons, List.nodup_cons] at hnd
    have step : dictUpdate d ((k1, v1) :: rest) = dictUpdate (dictInsert d k1 v1) rest := rfl
    rw [step, ih (dictInsert d k1 v1) k hnd.2, lookup_dictInsert]
    by_cases h : k1 = k
    · subst h
      have hrest : lookup rest k1 = none := lookup_eq_none_of_notMem rest k1 hnd.1
      simp [lookup, hrest, Option.orElse]
    · simp [lookup, h, Option.orElse]

theorem lookup_isSome_of_mem (l : Config) (k : String)
    (h : k ∈ l.map Prod.fst) : (lookup l k).isSome := by
  induction l with
  | nil => simp at h
  | cons p rest ih =>
    obtain ⟨k1, v1⟩ := p
    simp only [List.map_cons, List.mem_cons] at h
    by_cases he : k1 = k
    · simp [lookup, he]
    · have : k ∈ rest.map Prod.fst := by
        rcases h with h | h
        · exact absurd h.symm he
        · exact h
      simp [lookup, he, ih this]

/-! Claim theorems. -/

/-- C10: if the configuration file exists but cannot be read or parsed, both
load_config functions return without raising and yield exactly the full
default configuration — the same result as when the file is absent, with no
partial application of the corrupt document. -/
theorem corrupt_config_defaults :
    load_config_mgr ConfigFileState.unreadable = default_config_mgr ∧
    load_config_upd ConfigFileState.unreadable = default_config_upd ∧
    load_config_mgr ConfigFileState.unreadable = load_config_mgr ConfigFileState.absent ∧
    load_config_upd ConfigFileState.unreadable = load_config_upd ConfigFileState.absent :=
  ⟨rfl, rfl, rfl, rfl⟩

/-- C2: when the Java-version check fails or no assets path is obtained, the
start sequence produces no further step at all — no kill of an existing
server, no self-update check, no update, no backup and no spawn. -/
theorem prereq_abort (javaOk : Bool) (assets : Option String) (cfg : Config)
    (h : javaOk = false ∨ assets = none) :
    start_server_thread javaOk assets cfg = [] := by
  rcases h with h | h
  · subst h; rfl
  · subst h; cases javaOk <;> rfl

/-- Witness for prereq_abort: the concrete fresh-directory scenario with no
asset bundle aborts with an empty step trace. -/
theorem prereq_abort_witness :
    start_server_thread true none default_config_mgr = [] :=
  prereq_abort true none default_config_mgr (Or.inr rfl)

/-- C7: on a live process with an open input channel send_command writes
exactly the command followed by a single newline; on a closed channel, an
absent process, or an exited process the call only logs, never raises. -/
theorem sendCommand_policy (command : String) (procPresent : Bool)
    (poll : Option Int) (chan : ChanState) :
    (procPresent = true → poll = none → chan = ChanState.opened →
       send_command procPresent poll chan command =
         SendOutcome.wrote (command ++ "\n")) ∧
    (chan = ChanState.closed ∨ procPresent = false ∨ poll ≠ none →
       ∃ m, send_command procPresent poll chan command = SendOutcome.logged m) := by
  constructor
  · intro h1 h2 h3
    subst h1; subst h2; subst h3
    rfl
  · intro h
    unfold send_command
    split
    next hp =>
      simp only [Bool.and_eq_true, beq_iff_eq] at hp
      cases chan with
      | opened =>
        rcases h with h | h | h
        · simp at h
        · rw [hp.1] at h; simp at h
        · exact absurd hp.2 h
      | closed => exact ⟨_, rfl⟩
    next hp => exact ⟨_, rfl⟩

/-- Witness for sendCommand_policy: a live open process receives the exact
bytes, a closed channel only logs. -/
theorem sendCommand_policy_witness :
    send_command true none ChanState.opened "say hi" =
      SendOutcome.wrote "say hi\n" ∧
    ∃ m, send_command true none ChanState.closed "say hi" = SendOutcome.logged m :=
  ⟨(sendCommand_policy "say hi" true none ChanState.opened).1 rfl rfl rfl,
   (sendCommand_policy "say hi" true none ChanState.closed).2 (Or.inl rfl)⟩

/-- C1: the monitor loop re-enters the start sequence iff the exit code is
nonzero, no explicit stop was requested and enable_auto_restart is truthy;
exit code 0 never restarts, a requested stop suppresses the restart for
every exit code, and when the restart fires the crash notification precedes
the fixed 10-second sleep which precedes the re-entry. -/
theorem autoRestart_policy (rc : Int) (stopRequested : Bool) (cfg : Config) :
    (MEvent.startSequence ∈ monitor_exit rc stopRequested cfg ↔
       rc ≠ 0 ∧ stopRequested = false ∧
         pyTruthyJ (cfgGet cfg "enable_auto_restart" (JValue.bool true)) = true) ∧
    MEvent.startSequence ∉ monitor_exit 0 stopRequested cfg ∧
    (stopRequested = true →
       MEvent.startSequence ∉ monitor_exit rc stopRequested cfg) ∧
    (MEvent.startSequence ∈ monitor_exit rc stopRequested cfg →
       monitor_exit rc stopRequested cfg =
         [MEvent.logExit rc, MEvent.statusStopped, MEvent.webhookStopped rc,
          MEvent.logCrashRestart, MEvent.webhookCrash, MEvent.sleepSeconds 10,
          MEvent.startSequence]) := by
  have hcond : ((rc != 0) && !stopRequested &&
      pyTruthyJ (cfgGet cfg "enable_auto_restart" (JValue.bool true))) = true ↔
      (rc ≠ 0 ∧ stopRequested = false ∧
        pyTruthyJ (cfgGet cfg "enable_auto_restart" (JValue.bool true)) = true) := by
    simp [Bool.and_eq_true, bne_iff_ne, Bool.not_eq_true', and_assoc]
  have hmem : MEvent.startSequence ∈ monitor_exit rc stopRequested cfg ↔
      ((rc != 0) && !stopRequested &&
        pyTruthyJ (cfgGet cfg "enable_auto_restart" (JValue.bool true))) = true := by
    unfold monitor_exit
    split
    next h => simp [h]
    next h => simp [h]
  refine ⟨hmem.trans hcond, ?_, ?_, ?_⟩
  · simp [monitor_exit]
  · intro hs
    subst hs
    simp [monitor_exit]
  · intro hm
    have hc := hmem.mp hm
    simp [monitor_exit, hc]

/-- Witness for autoRestart_policy: exit code 137 with no stop requested and
default configuration restarts; the same exit with a requested stop does
not. -/
theorem autoRestart_policy_witness :
    MEvent.startSequence ∈ monitor_exit 137 false default_config_mgr ∧
    MEvent.startSequence ∉ monitor_exit 137 true default_config_mgr :=
  ⟨(autoRestart_policy 137 false default_config_mgr).1.mpr
      ⟨by decide, rfl, by decide⟩,
   (autoRestart_policy 137 true default_config_mgr).2.2.1 rfl⟩

/-- C8: loading a persisted document with any subset of keys yields the
defaults merged with the present keys — per key, the loaded value wins when
present and the default fills in otherwise; every default key ends up
populated and every key of the document, known or unknown, is preserved
with its loaded value. -/
theorem config_merge (doc : Config) (hnd : (doc.map Prod.fst).Nodup) :
    (∀ k, lookup (load_config_mgr (ConfigFileState.parsed doc)) k =
        (lookup doc k).orElse (fun _ => lookup default_config_mgr k)) ∧
    (∀ k, k ∈ default_config_mgr.map Prod.fst →
        (lookup (load_config_mgr (ConfigFileState.parsed doc)) k).isSome) ∧
    (∀ k, k ∈ doc.map Prod.fst →
        lookup (load_config_mgr (ConfigFileState.parsed doc)) k = lookup doc k) := by
  have hmain : ∀ k, lookup (load_config_mgr (ConfigFileState.parsed doc)) k =
      (lookup doc k).orElse (fun _ => lookup default_config_mgr k) := by
    intro k
    simp only [load_config_mgr]
    exact lookup_dictUpdate doc default_config_mgr k hnd
  refine ⟨hmain, ?_, ?_⟩
  · intro k hk
    rw [hmain k]
    cases hdoc : lookup doc k with
    | some v => simp [Option.orElse]
    | none =>
      simp [Option.orElse, lookup_isSome_of_mem default_config_mgr k hk]
  · intro k hk
    rw [hmain k]
    have hs := lookup_isSome_of_mem doc k hk
    cases hdoc : lookup doc k with
    | some v => simp [Option.orElse]
    | none => rw [hdoc] at hs; simp at hs

/-- Witness for config_merge: a document carrying one known key and one
unknown key: the known key overrides its default, a missing key keeps its
default and the unknown key is preserved. -/
theorem config_merge_witness :
    lookup (load_config_mgr (ConfigFileState.parsed
        [("server_memory", JValue.str "16G"), ("custom_key", JValue.num 7)]))
        "server_memory" = some (JValue.str "16G") ∧
    lookup (load_config_mgr (ConfigFileState.parsed
        [("server_memory", JValue.str "16G"), ("custom_key", JValue.num 7)]))
        "max_backups" = some (JValue.num 3) ∧
    lookup (load_config_mgr (ConfigFileState.parsed
        [("server_memory", JValue.str "16G"), ("custom_key", JValue.num 7)]))
        "custom_key" = some (JValue.num 7) := by
  have h := config_merge
      [("server_memory", JValue.str "16G"), ("custom_key", JValue.num 7)] (by decide)
  refine ⟨?_, ?_, ?_⟩
  · rw [h.1 "server_memory"]; decide
  · rw [h.1 "max_backups"]; decide
  · rw [h.1 "custom_key"]; decide

/-- C3: when the queried remote version is obtained (a nonempty string) and
string-equal to the recorded local version, both update_server variants
return before any action: no download invocation, no file replaced, no
configuration saved and the in-memory configuration unchanged. -/
theorem update_skip (v : String) (cfg : Config) (exitCode : Int) (st : Staging)
    (aotExists : Bool) (hv : v ≠ "")
    (heq : cfgGet cfg "last_server_version" (JValue.str "0.0.0") = JValue.str v) :
    update_server_mgr (some v) cfg exitCode st = { events := [], config := cfg } ∧
    update_server_upd (some v) cfg exitCode aotExists =
      { events := [], config := cfg } := by
  have hskip : server_update_skips (some v) cfg = true := by
    simp [server_update_skips, pyTruthy, hv, heq]
  exact ⟨by simp [update_server_mgr, hskip], by simp [update_server_upd, hskip]⟩

/-- Witness for update_skip: remote version equal to the default recorded
version skips with no action. -/
theorem update_skip_witness :
    update_server_mgr (some "0.0.0") default_config_mgr 0
        { rootFiles := [], hasServerDir := false, serverDirFiles := [] } =
      { events := [], config := default_config_mgr } :=
  (update_skip "0.0.0" default_config_mgr 0
      { rootFiles := [], hasServerDir := false, serverDirFiles := [] } false
      (by decide) (by decide)).1

/-- C5: when the remote version query fails, both update_server variants
proceed with the download invocation unconditionally, and the skip path (an
empty action trace) can only arise when a truthy remote version was
obtained and equals the recorded version — the logic never fails closed. -/
theorem update_fail_open (cfg : Config) (exitCode : Int) (st : Staging)
    (aotExists : Bool) :
    UEvent.downloadApply ∈ (update_server_mgr none cfg exitCode st).events ∧
    UEvent.downloadApply ∈ (update_server_upd none cfg exitCode aotExists).events ∧
    (∀ remote, (update_server_mgr remote cfg exitCode st).events = [] →
       pyTruthy remote = true ∧
         JValue.str (remote.getD "") =
           cfgGet cfg "last_server_version" (JValue.str "0.0.0")) ∧
    (∀ remote, (update_server_upd remote cfg exitCode aotExists).events = [] →
       pyTruthy remote = true ∧
         JValue.str (remote.getD "") =
           cfgGet cfg "last_server_version" (JValue.str "0.0.0")) := by
  have hskip : server_update_skips none cfg = false := by
    simp [server_update_skips, pyTruthy]
  refine ⟨?_, ?_, ?_, ?_⟩
  · by_cases he : exitCode = 0
    · subst he
      simp [update_server_mgr, hskip, pyTruthy]
    · simp [update_server_mgr, hskip, pyTruthy, he]
  · by_cases he : exitCode = 0
    · subst he
      simp [update_server_upd, hskip, pyTruthy]
    · simp [update_server_upd, hskip, pyTruthy, he]
  · intro remote hev
    by_cases hs : server_update_skips remote cfg = true
    · simp only [server_update_skips, Bool.and_eq_true, beq_iff_eq] at hs
      exact ⟨hs.1, hs.2⟩
    · exfalso
      rw [Bool.not_eq_true] at hs
      by_cases he : exitCode = 0
      · subst he
        by_cases hp : pyTruthy remote = true
        · simp [update_server_mgr, hs, hp] at hev
        · simp [update_server_mgr, hs, hp] at hev
      · simp [update_server_mgr, hs, he] at hev
  · intro remote hev
    by_cases hs : server_update_skips remote cfg = true
    · simp only [server_update_skips, Bool.and_eq_true, beq_iff_eq] at hs
      exact ⟨hs.1, hs.2⟩
    · exfalso
      rw [Bool.not_eq_true] at hs
      by_cases he : exitCode = 0
      · subst he
        by_cases hp : pyTruthy remote = true
        · simp [update_server_upd, hs, hp] at hev
        · simp [update_server_upd, hs, hp] at hev
      · simp [update_server_upd, hs, he] at hev

/-- Witness for update_fail_open: an unobtainable remote version triggers
the download on the default configuration, and a skip witnesses equality
with the recorded version. -/
theorem update_fail_open_witness :
    UEvent.downloadApply ∈
      (update_server_mgr none default_config_mgr 0
        { rootFiles := [], hasServerDir := false, serverDirFiles := [] }).events ∧
    (pyTruthy (some "0.0.0") = true ∧
      JValue.str ((some "0.0.0").getD "") =
        cfgGet default_config_mgr "last_server_version" (JValue.str "0.0.0")) :=
  ⟨(update_fail_open default_config_mgr 0
      { rootFiles := [], hasServerDir := false, serverDirFiles := [] } false).1,
   (update_fail_open default_config_mgr 0
      { rootFiles := [], hasServerDir := false, serverDirFiles := [] } false).2.2.1
      (some "0.0.0") (by decide)⟩

/-- C4 counterexample: with remote version 1.9.0 and recorded version
1.10.0 the component-wise numeric comparison of check_self_update says the
remote is not greater, yet the server update proceeds with the download —
so the server-update decision is not that ordering (it is plain string
inequality). -/
theorem version_ordering_cex :
    self_update_proceeds "1.9.0" "1.10.0" = false ∧
    UEvent.downloadApply ∈
      (update_server_mgr (some "1.9.0")
        (dictUpdate default_config_mgr [("last_server_version", JValue.str "1.10.0")]) 0
        { rootFiles := [SERVER_JAR], hasServerDir := false, serverDirFiles := [] }).events := by
  decide

/-- C4 amended: the server update proceeds iff the obtained remote version
string differs from the recorded one, whatever their numeric order; the
component-wise numeric ordering, which treats 10 as greater than 9 where
lexicographic string order does not, is used only by the manager
self-update check (parse_ver). -/
theorem version_ordering_amended (cfg : Config) (exitCode : Int) (st : Staging)
    (r : String) (hr : r ≠ "") :
    (UEvent.downloadApply ∈ (update_server_mgr (some r) cfg exitCode st).events ↔
       JValue.str r ≠ cfgGet cfg "last_server_version" (JValue.str "0.0.0")) ∧
    self_update_proceeds "1.10.0" "1.9.0" = true ∧
    self_update_proceeds "1.9.0" "1.10.0" = false ∧
    parse_ver "1.10.0" = [1, 10, 0] ∧
    pyStrLt "1.10.0".data "1.9.0".data = true := by
  refine ⟨?_, by decide, by decide, by decide, by decide⟩
  constructor
  · intro hm
    intro heq
    have := (update_skip r cfg exitCode st false hr heq.symm).1
    rw [this] at hm
    simp at hm
  · intro hne
    have hskip : server_update_skips (some r) cfg = false := by
      simp only [server_update_skips, pyTruthy, Option.getD]
      have h2 : (JValue.str r == cfgGet cfg "last_server_version" (JValue.str "0.0.0")) = false := by
        rw [beq_eq_false_iff_ne]
        exact hne
      rw [h2]
      simp
    by_cases he : exitCode = 0
    · subst he
      by_cases hp : pyTruthy (some r) = true
      · simp [update_server_mgr, hskip, hp]
      · simp [update_server_mgr, hskip, hp]
    · simp [update_server_mgr, hskip, he]

/-- Witness for version_ordering_amended: remote 1.10.0 differs from the
default recorded 0.0.0, so the download proceeds. -/
theorem version_ordering_amended_witness :
    UEvent.downloadApply ∈
      (update_server_mgr (some "1.10.0") default_config_mgr 0
        { rootFiles := [], hasServerDir := false, serverDirFiles := [] }).events :=
  (version_ordering_amended default_config_mgr 0
      { rootFiles := [], hasServerDir := false, serverDirFiles := [] }
      "1.10.0" (by decide)).1.mpr (by decide)

/-- C6 counterexample: in the manager a successful updater run (exit code 0)
with an obtained remote version performs no deletion of the cached AOT
artifact — here the staging provides neither the server jar nor an AOT
file, so the stale local AOT would survive, and the recorded version is
still overwritten with 9.9.9 even though the apply step located no server
jar. -/
theorem update_aot_cex :
    UEvent.removeAot ∉
      (update_server_mgr (some "9.9.9") default_config_mgr 0
        { rootFiles := [], hasServerDir := false, serverDirFiles := [] }).events ∧
    UEvent.replaceFile AOT_FILE ∉
      (update_server_mgr (some "9.9.9") default_config_mgr 0
        { rootFiles := [], hasServerDir := false, serverDirFiles := [] }).events ∧
    (applyFiles { rootFiles := [], hasServerDir := false, serverDirFiles := [] }).1 = false ∧
    cfgGet (update_server_mgr (some "9.9.9") default_config_mgr 0
        { rootFiles := [], hasServerDir := false, serverDirFiles := [] }).config
        "last_server_version" (JValue.str "0.0.0") = JValue.str "9.9.9" := by
  decide

/-- C6 amended: on a successful updater exit with an obtained remote
version both variants overwrite the recorded version and persist the
configuration, and the updater variant deletes the cached AOT artifact when
present (the manager variant does not delete it, it only copies a staged
one over it); on a non-zero exit the recorded version is never mutated,
nothing is persisted and no AOT artifact is removed. -/
theorem update_success_records (v : String) (cfg : Config) (exitCode : Int)
    (st : Staging) (aotExists : Bool) (hv : v ≠ "")
    (hne : cfgGet cfg "last_server_version" (JValue.str "0.0.0") ≠ JValue.str v) :
    (exitCode = 0 →
       (update_server_upd (some v) cfg exitCode aotExists).config =
         dictInsert cfg "last_server_version" (JValue.str v) ∧
       UEvent.saveConfig (dictInsert cfg "last_server_version" (JValue.str v)) ∈
         (update_server_upd (some v) cfg exitCode aotExists).events ∧
       (aotExists = true →
         UEvent.removeAot ∈ (update_server_upd (some v) cfg exitCode aotExists).events) ∧
       (update_server_mgr (some v) cfg exitCode st).config =
         dictInsert cfg "last_server_version" (JValue.str v) ∧
       UEvent.saveConfig (dictInsert cfg "last_server_version" (JValue.str v)) ∈
         (update_server_mgr (some v) cfg exitCode st).events) ∧
    (exitCode ≠ 0 →
       (update_server_upd (some v) cfg exitCode aotExists).config = cfg ∧
       (update_server_mgr (some v) cfg exitCode st).config = cfg ∧
       (∀ c, UEvent.saveConfig c ∉ (update_server_upd (some v) cfg exitCode aotExists).events) ∧
       (∀ c, UEvent.saveConfig c ∉ (update_server_mgr (some v) cfg exitCode st).events) ∧
       UEvent.removeAot ∉ (update_server_upd (some v) cfg exitCode aotExists).events) := by
  have hskip : server_update_skips (some v) cfg = false := by
    simp only [server_update_skips, pyTruthy, Option.getD]
    have h2 : (JValue.str v == cfgGet cfg "last_server_version" (JValue.str "0.0.0")) = false := by
      rw [beq_eq_false_iff_ne]
      exact fun h => hne h.symm
    rw [h2]
    simp
  have hp : pyTruthy (some v) = true := by simp [pyTruthy, hv]
  constructor
  · intro he
    subst he
    refine ⟨?_, ?_, ?_, ?_, ?_⟩
    · simp [update_server_upd, hskip, hp]
    · cases aotExists <;> simp [update_server_upd, hskip, hp]
    · intro ha
      subst ha
      simp [update_server_upd, hskip, hp]
    · simp [update_server_mgr, hskip, hp]
    · simp [update_server_mgr, hskip, hp]
  · intro he
    refine ⟨?_, ?_, ?_, ?_, ?_⟩ <;>
      simp [update_server_upd, update_server_mgr, hskip, he]

/-- Witness for update_success_records: a successful run on the default
updater configuration with an existing AOT file records version 1.2.3 and
removes the AOT artifact; the same run with exit code 1 leaves the
configuration untouched. -/
theorem update_success_records_witness :
    ((update_server_upd (some "1.2.3") default_config_upd 0 true).config =
      dictInsert default_config_upd "last_server_version" (JValue.str "1.2.3") ∧
     UEvent.removeAot ∈ (update_server_upd (some "1.2.3") default_config_upd 0 true).events) ∧
    (update_server_upd (some "1.2.3") default_config_upd 1 true).config =
      default_config_upd := by
  have h0 := (update_success_records "1.2.3" default_config_upd 0
      { rootFiles := [], hasServerDir := false, serverDirFiles := [] } true
      (by decide) (by decide)).1 rfl
  have h1 := (update_success_records "1.2.3" default_config_upd 1
      { rootFiles := [], hasServerDir := false, serverDirFiles := [] } true
      (by decide) (by decide)).2 (by decide)
  exact ⟨⟨h0.1, h0.2.2.1 rfl⟩, h1.1⟩

/-- C9 counterexample: with max_backups configured to 0 (a value the GUI
accepts), the Python slice backups[:-0] is empty, so after creating the
archive nothing is pruned and one archive remains although the configured
retention count is 0. -/
theorem backup_retention_cex :
    pyInt (cfgGet (dictUpdate default_config_mgr [("max_backups", JValue.num 0)])
        "max_backups" (JValue.num 3)) = some 0 ∧
    backup_world_mgr (dictUpdate default_config_mgr [("max_backups", JValue.num 0)]) true
        ["world_backup_2025-01-01_00-00-00.zip"] =
      { archiveCreated := true, removed := [] } := by
  decide

/-- C9 amended: the backup step does nothing when backups are disabled or
the world directory is missing; otherwise it creates the timestamped
archive and, provided the configured retention count is positive, prunes a
leading (oldest) slice of the sorted listing so that at most that many
archives remain; the updater variant prunes to the fixed count 5 instead of
the configured one. -/
theorem backup_policy (cfg : Config) (worldExists : Bool) (backups : List String) :
    (pyTruthyJ (cfgGet cfg "enable_backups" (JValue.bool true)) = false ∨
        worldExists = false →
      backup_world_mgr cfg worldExists backups =
        { archiveCreated := false, removed := [] } ∧
      backup_world_upd cfg worldExists backups =
        { archiveCreated := false, removed := [] }) ∧
    (pyTruthyJ (cfgGet cfg "enable_backups" (JValue.bool true)) = true →
        worldExists = true →
      (backup_world_mgr cfg worldExists backups).archiveCreated = true ∧
      (∀ maxB : Int, pyInt (cfgGet cfg "max_backups" (JValue.num 3)) = some maxB →
        0 < maxB →
        (backup_world_mgr cfg worldExists backups).removed =
          backups.take (backups.length - maxB.toNat) ∧
        ((backups.length : Int) -
          ((backup_world_mgr cfg worldExists backups).removed.length : Int) ≤ maxB)) ∧
      ((backups.length : Int) -
        ((backup_world_upd cfg worldExists backups).removed.length : Int) ≤ 5)) := by
  constructor
  · intro h
    rcases h with h | h
    · simp [backup_world_mgr, backup_world_upd, h]
    · subst h
      by_cases hb : pyTruthyJ (cfgGet cfg "enable_backups" (JValue.bool true)) = true <;>
        simp [backup_world_mgr, backup_world_upd, hb]
  · intro hb hw
    subst hw
    refine ⟨?_, ?_, ?_⟩
    · cases hpi : pyInt (cfgGet cfg "max_backups" (JValue.num 3)) with
      | none => simp [backup_world_mgr, hb, hpi]
      | some maxB =>
        by_cases hgt : (backups.length : Int) > maxB <;>
          simp [backup_world_mgr, hb, hpi, hgt]
    · intro maxB hpm hpos
      by_cases hgt : (backups.length : Int) > maxB
      · have hneg : -maxB < 0 := by omega
        have htake : pySliceUpTo backups (-maxB) =
            backups.take (backups.length - maxB.toNat) := by
          rw [pySliceUpTo, if_pos hneg, neg_neg]
        have hres : backup_world_mgr cfg true backups =
            { archiveCreated := true,
              removed := backups.take (backups.length - maxB.toNat) } := by
          simp [backup_world_mgr, hb, hpm, hgt, htake]
        rw [hres]
        refine ⟨rfl, ?_⟩
        simp only [List.length_take]
        omega
      · have hres : backup_world_mgr cfg true backups =
            { archiveCreated := true, removed := [] } := by
          simp [backup_world_mgr, hb, hpm, hgt]
        rw [hres]
        have hz : backups.length - maxB.toNat = 0 := by omega
        rw [hz]
        refine ⟨by simp, ?_⟩
        simp only [List.length_nil]
        omega
    · by_cases hgt : backups.length > 5
      · have htake : pySliceUpTo backups (-(5 : Int)) =
            backups.take (backups.length - 5) := by
          rw [pySliceUpTo, if_pos (by norm_num : (-(5 : Int)) < 0), neg_neg]
          simp
        have hres : backup_world_upd cfg true backups =
            { archiveCreated := true,
              removed := backups.take (backups.length - 5) } := by
          simp [backup_world_upd, hb, hgt, htake]
        rw [hres]
        simp only [List.length_take]
        omega
      · have hres : backup_world_upd cfg true backups =
            { archiveCreated := true, removed := [] } := by
          simp [backup_world_upd, hb, hgt]
        rw [hres]
        simp only [List.length_nil]
        omega

/-- Witness for backup_policy: a disabled world directory skips entirely,
and with the default retention of 3 a listing of four archives is pruned
down to the newest three by removing the oldest. -/
theorem backup_policy_witness :
    backup_world_mgr default_config_mgr false [] =
      { archiveCreated := false, removed := [] } ∧
    (backup_world_mgr default_config_mgr true
        ["world_backup_a.zip", "world_backup_b.zip", "world_backup_c.zip",
          "world_backup_d.zip"]).removed = ["world_backup_a.zip"] := by
  constructor
  · exact ((backup_policy default_config_mgr false []).1 (Or.inr rfl)).1
  · have h := ((backup_policy default_config_mgr true
        ["world_backup_a.zip", "world_backup_b.zip", "world_backup_c.zip",
          "world_backup_d.zip"]).2 (by decide) rfl).2.1 3 (by decide) (by decide)
    rw [h.1]
    decide

end Hytale
